import Mathlib

/-!
Verification of the ticketbot reference-detection and rate-limited dispatch
engine (`tickethelpers.py`) against its natural-language specification.

The embedding is shallow: compiled regular expressions are modelled as
find-all functions `String → List String`, the fixed class-level generic
pattern `defaultRE = '(?<!\w)#([0-9]{4,})(?:(?=\W)|$)'` is implemented
concretely, Python dicts (`self.channels`, `self.lastSent`) are association
lists with first-occurrence lookup and in-place replacement (insertion
order preserved, as in Python 3.7+ dicts), `time.time()` is an explicit
`now : Int` parameter, and Python `%`-string formatting is implemented for
the `%s` conversions the source uses.  `IndexError` (the NotFound condition
of the provider contract) is `Except Unit`; a `TypeError` raised by a
malformed `%` format is `PyError.typeError`; the proposal provider's
`_gettitle` distinguishes the caught NotFound from uncaught exceptions
escaping its refresh via `PropErr`.
-/

set_option autoImplicit false

/-- Python `\s` whitespace class (ASCII fragment, which is all the source's
titles and index data use). -/
def isPySpace (c : Char) : Bool :=
  c = ' ' || c = '\t' || c = '\n' || c = '\r' || c = '\x0b' || c = '\x0c'

/-- Python `\w` word-character class (ASCII fragment). -/
def isWordChar (c : Char) : Bool :=
  c.isAlphanum || c = '_'

/-- One pass of `re.sub('\s+', ' ', title)`: every maximal run of whitespace
becomes a single space.  The boolean records whether the previous character
was part of a whitespace run. -/
def collapseAux : Bool → List Char → List Char
  | _, [] => []
  | prevSpace, c :: cs =>
    if isPySpace c then
      if prevSpace then collapseAux true cs
      else ' ' :: collapseAux true cs
    else c :: collapseAux false cs

/-- Python `str.strip()`: drop leading and trailing whitespace. -/
def pyStrip (l : List Char) : List Char :=
  ((l.dropWhile isPySpace).reverse.dropWhile isPySpace).reverse

/-- `re.sub('\s+', ' ', title).strip()` — the whitespace-collapse step of
`BaseProvider.fixup_title` (tickethelpers.py line 89). -/
def collapseWs (s : String) : String :=
  (pyStrip (collapseAux false s.data)).asString

/-- Substitute successive `%s` conversions of a Python format string with
the given arguments (the only conversion the formats evaluated by the
embedding consume; see `pySpecCount` for arity checking). -/
def pySubst : List Char → List String → List Char
  | '%' :: 's' :: rest, a :: args => a.data ++ pySubst rest args
  | c :: rest, args => c :: pySubst rest args
  | [], _ => []

/-- Python `fmt % args` for the well-formed `%s`-only formats the source
applies. -/
def pyFormat (fmt : String) (args : List String) : String :=
  (pySubst fmt.data args).asString

/-- Number of conversion specifiers of a Python format string (`%%` is a
literal percent sign).  Python raises `TypeError` when the argument tuple's
length differs from this count. -/
def pySpecCount : List Char → Nat
  | '%' :: '%' :: rest => pySpecCount rest
  | '%' :: _ :: rest => pySpecCount rest + 1
  | _ :: rest => pySpecCount rest
  | [] => 0

/-- Exceptions of the embedding that are not the NotFound/`IndexError`
condition: the `TypeError` Python raises when a `%` format's specifier
count does not match its argument count, and the exceptions (such as a
`URLError` while reading a response body, or a `UnicodeDecodeError`) that
escape the statements of `TorProposalProvider.update` standing outside its
`try` block. -/
inductive PyError where
  | typeError
  | fetchError
deriving DecidableEq, Repr

/-- `log.debug(fmt % args)`: evaluating the format raises `TypeError` when
the specifier count differs from the argument count, otherwise the call is
a pure no-op. -/
def logFormat (fmt : String) (nargs : Nat) : Except PyError Unit :=
  if pySpecCount fmt.data = nargs then Except.ok () else Except.error PyError.typeError

/-- Fuel-driven shell-glob matcher: the fragment of Python
`fnmatch.fnmatch` built from literal characters, `*` and `?` — the only
constructs appearing in this repository's channel globs and in
`debugChannels`.  The fuel always suffices when it exceeds the sum of both
lengths. -/
def globMatch : Nat → List Char → List Char → Bool
  | 0, _, _ => false
  | _ + 1, [], [] => true
  | _ + 1, [], _ :: _ => false
  | fuel + 1, '*' :: ps, [] => globMatch fuel ps []
  | fuel + 1, '*' :: ps, c :: cs =>
      globMatch fuel ps (c :: cs) || globMatch (fuel + 1 - 1) ('*' :: ps) cs
  | _ + 1, _ :: _, [] => false
  | fuel + 1, p :: ps, c :: cs => (p = '?' || p = c) && globMatch fuel ps cs

/-- `fnmatch.fnmatch(nm, pat)` (case-sensitive, as on POSIX). -/
def fnmatch (nm pat : String) : Bool :=
  globMatch (pat.length + nm.length + 1) pat.data nm.data

/-- Guard of the lookahead `(?:(?=\W)|$)` of `defaultRE`: the position
after the digit run is the end of input or a non-word character. -/
def headNonWord : List Char → Bool
  | [] => true
  | c :: _ => !isWordChar c

/-- Fuel-driven scanner implementing
`re.findall('(?<!\w)#([0-9]{4,})(?:(?=\W)|$)', msg)` — the class-level
`BaseProvider.defaultRE` (line 43).  The boolean carries whether the
preceding character is a word character (for the lookbehind `(?<!\w)`);
matches are non-overlapping and found left to right, and on a successful
match scanning resumes after the consumed digits, whose last digit is a
word character. -/
def scanDefaultRE : Nat → Bool → List Char → List String
  | 0, _, _ => []
  | _ + 1, _, [] => []
  | fuel + 1, prevWord, '#' :: rest =>
    if prevWord then scanDefaultRE fuel false rest
    else
      let ds := rest.takeWhile Char.isDigit
      let rest2 := rest.drop ds.length
      if 4 ≤ ds.length && headNonWord rest2 then
        ds.asString :: scanDefaultRE fuel true rest2
      else scanDefaultRE fuel false rest
  | fuel + 1, _, c :: rest => scanDefaultRE fuel (isWordChar c) rest

/-- `re.findall(self.defaultRE, msg)`. -/
def defaultREfindall (msg : String) : List String :=
  scanDefaultRE (msg.length + 1) false msg.data

/-- A compiled regular expression, abstracted to its find-all behaviour
`re.findall(pattern, msg)`: the list of captured identifiers, in match
order. -/
def Findall : Type := String → List String

/-- `self.lastSent[(tgt, m)]` lookup (`(tgt,m) in self.lastSent` and the
subscript, lines 185–186). -/
def lsLookup : List ((String × String) × Int) → String × String → Option Int
  | [], _ => none
  | (k, v) :: rest, key => if k = key then some v else lsLookup rest key

/-- `self.lastSent[(tgt, m)] = time.time()` (line 197): replace the first
binding of the key in place, else append — Python dict update semantics. -/
def lsInsert : List ((String × String) × Int) → String × String → Int →
    List ((String × String) × Int)
  | [], key, v => [(key, v)]
  | (k, w) :: rest, key, v =>
    if k = key then (k, v) :: rest else (k, w) :: lsInsert rest key v

/-- One channel binding's value `{ 're': regex, 'default': default }`
(line 147). -/
structure ChannelConf where
  re : Option Findall
  dflt : Bool

/-- `self.channels[channel]` lookup. -/
def chLookup : List (String × ChannelConf) → String → Option ChannelConf
  | [], _ => none
  | (k, v) :: rest, key => if k = key then some v else chLookup rest key

/-- `self.channels[channel] = ...`: Python dict update (replace in place,
keep position; else append). -/
def chInsert : List (String × ChannelConf) → String → ChannelConf →
    List (String × ChannelConf)
  | [], key, v => [(key, v)]
  | (k, w) :: rest, key, v =>
    if k = key then (k, v) :: rest else (k, w) :: chInsert rest key v

/-- `channel in self.channels` (line 145). -/
def containsChannel (chs : List (String × ChannelConf)) (c : String) : Bool :=
  (chLookup chs c).isSome

/-- Number of bindings stored for one glob (a Python dict always has zero
or one). -/
def countKey (chs : List (String × ChannelConf)) (c : String) : Nat :=
  (chs.filter (fun kc => kc.1 = c)).length

/-- Result of `_gettitle`: either a bare title string or a dict carrying
the title plus extra data (`soup`, `path`, ...) of type `α` for the status
finder and fixup. -/
inductive GetTitleResult (α : Type) where
  | plain (title : String)
  | withExtra (title : String) (extra : α)

/-- The title component of a `_gettitle` result (`title['title']` in the
dict case, line 122). -/
def titleOf {α : Type} : GetTitleResult α → String
  | GetTitleResult.plain t => t
  | GetTitleResult.withExtra t _ => t

/-- The `extra` keyword argument derived from a `_gettitle` result
(lines 119–121): present exactly when the result was a dict. -/
def extraOf {α : Type} : GetTitleResult α → Option α
  | GetTitleResult.plain _ => none
  | GetTitleResult.withExtra _ e => some e

/-- `BaseProvider` (tickethelpers.py lines 40–198), state after
construction.  `pre`/`post` model `self.prefix`/`self.postfix` (those two
identifiers are unavailable in Lean); `re` is `self.re` as set by
`__init__`; `gettitle` is the subclass's `_gettitle`, whose NotFound
failure (`IndexError`) is `Except.error ()`.  The type `α` is the type of
the extra data a dict-returning `_gettitle` carries. -/
structure Provider (α : Type) where
  name : String
  fixup : Option (String → String → Option α → String)
  pre : Option String
  post : Option String
  status_finder : Option (String → Option α → Option String)
  re : Option Findall
  channels : List (String × ChannelConf)
  lastSent : List ((String × String) × Int)
  gettitle : String → Except Unit (GetTitleResult α)

/-- `BaseProvider.minRepeat = 1800` (line 42). -/
def minRepeat : Int := 1800

/-- `BaseProvider.debugChannels = ['#*-test']` (line 44). -/
def debugChannels : List String := ["#*-test"]

/-- `BaseProvider._do_log` (lines 149–153). -/
def Provider.do_log {α : Type} (_p : Provider α) (tgt : String) : Bool :=
  debugChannels.any fun d => fnmatch tgt d

/-- `BaseProvider.fixup_title` (lines 83–99): collapse whitespace and
strip, then the user fixup if any, then prepend `self.prefix` if any, then
append `self.postfix % ticketnumber` if any. -/
def fixup_title {α : Type} (p : Provider α) (title ticketnumber : String)
    (extra : Option α) : String :=
  let t1 := collapseWs title
  let t2 := match p.fixup with
    | none => t1
    | some f => f ticketnumber t1 extra
  let t3 := match p.pre with
    | none => t2
    | some s => s ++ t2
  match p.post with
  | none => t3
  | some s => t3 ++ pyFormat s [ticketnumber]

/-- `BaseProvider.__getitem__` (lines 110–132): `_gettitle`, unwrap a dict
result into title and `extra`, run `fixup_title`, then — after all of that
— append `" - [<status>]"` when the status finder yields one. -/
def getitem {α : Type} (p : Provider α) (ticketnumber : String) :
    Except Unit String := do
  let r ← p.gettitle ticketnumber
  let t := fixup_title p (titleOf r) ticketnumber (extraOf r)
  let t := match p.status_finder with
    | none => t
    | some sf => match sf ticketnumber (extraOf r) with
      | none => t
      | some status => pyFormat "%s - [%s]" [t, status]
  pure t

/-- `BaseProvider.matches` (lines 134–138): `[]` when `self.re is None`,
else `re.findall(self.re, msg)`. -/
def Provider.matches {α : Type} (p : Provider α) (msg : String) : List String :=
  match p.re with
  | none => []
  | some f => f msg

/-- `BaseProvider.addChannel` (lines 140–147).  The second component
records whether the "re-adding" warning was logged (the channel glob was
already present). -/
def addChannel {α : Type} (p : Provider α) (channel : String)
    (regex : Option Findall) (dflt : Bool) : Provider α × Bool :=
  ({ p with channels := chInsert p.channels channel ⟨regex, dflt⟩ },
   containsChannel p.channels channel)

/-- The channel loop of `doPrivmsg` (lines 169–178): for every binding
whose glob matches the target, add the generic `defaultRE` matches when the
binding is a default binding, then the dedicated regex's matches when one
is set. -/
def channelMatches {α : Type} (p : Provider α) (tgt msg : String) : List String :=
  p.channels.foldl
    (fun acc kc =>
      if fnmatch tgt kc.1 then
        let acc2 := if kc.2.dflt then acc ++ defaultREfindall msg else acc
        match kc.2.re with
        | none => acc2
        | some f => acc2 ++ f msg
      else acc)
    []

/-- The rate-limit test of lines 185–186:
`(tgt,m) in self.lastSent and self.lastSent[(tgt,m)] >= time.time() - self.minRepeat`. -/
def rateLimited (ls : List ((String × String) × Int)) (tgt m : String)
    (now : Int) : Bool :=
  match lsLookup ls (tgt, m) with
  | none => false
  | some t => decide (now - minRepeat ≤ t)

/-- The per-candidate loop of `doPrivmsg` (lines 184–198): drop a
rate-limited candidate (its debug log is well-formed, see
`logFormat_rate_limited_ok`); look the surviving candidate up, dropping it
on `IndexError` (well-formed log, see `logFormat_failed_lookup_ok`);
otherwise record `lastSent[(tgt,m)] = now` and yield the item.  Returns
the yielded items in order together with the final `lastSent`. -/
def stepLoop {α : Type} (p : Provider α) (tgt : String) (now : Int) :
    List String → List ((String × String) × Int) →
    List String × List ((String × String) × Int)
  | [], ls => ([], ls)
  | m :: rest, ls =>
    if rateLimited ls tgt m now then
      stepLoop p tgt now rest ls
    else
      match getitem p m with
      | Except.error _ => stepLoop p tgt now rest ls
      | Except.ok item =>
        let r := stepLoop p tgt now rest (lsInsert ls (tgt, m) now)
        (item :: r.1, r.2)

/-- `BaseProvider.doPrivmsg` (lines 155–198).  Collect `self.matches(msg)`
and then the channel loop's matches; when at least four matches were
collected, line 182 evaluates the malformed format
`"[%s] skipping because too many matches (%d)" % (len(matches),)` — two
specifiers, one argument — so the generator raises `TypeError` instead of
returning silently; otherwise run the per-candidate loop.  The `_do_log`
guarded debug logs (lines 165, 174, 177, 180, 196) all have matching
specifier and argument counts and are modelled as no-ops.  `time.time()`
is the parameter `now`, constant across one call. -/
def doPrivmsg {α : Type} (p : Provider α) (tgt msg : String) (now : Int) :
    Except PyError (List String × List ((String × String) × Int)) :=
  let ms := p.matches msg ++ channelMatches p tgt msg
  if 4 ≤ ms.length then do
    logFormat "[%s] skipping because too many matches (%d)" 1
    pure ([], p.lastSent)
  else
    pure (stepLoop p tgt now ms p.lastSent)

/-- `ReGroupFixup` (lines 363–377): the compiled `groupre` is abstracted to
its `re.match` behaviour — `none` when the pattern does not match, `some
none` when it matches with no capture groups, `some (some g)` when it
matches and the first group captured `g`.  The title is replaced by the
first group's capture exactly when one exists, and the result is
`"#%s: %s" % (i, x)`. -/
def reGroupFixup (groupre : String → Option (Option String)) (i x : String) :
    String :=
  let x2 := match groupre x with
    | some (some g) => g
    | _ => x
  pyFormat "#%s: %s" [i, x2]

/-- `TicketHtmlTitleProvider._gettitle`'s fetch URL
(line 238): `'%s%s' % (url, ticketnumber)`. -/
def htmlFetchUrl (url ticketnumber : String) : String :=
  pyFormat "%s%s" [url, ticketnumber]

/-- `GitlabTitleProvider._gettitle`'s fetch URL (lines 282–285): the base
URL, the project path, the literal infix spelled slash dash slash
`issues` slash (see the format string below), then the ticket number
appended by the HTML title provider. -/
def gitlabFetchUrl (baseUrl path ticketnumber : String) : String :=
  htmlFetchUrl (pyFormat "%s%s/-/issues/" [baseUrl, path]) ticketnumber

/-- The mutable cache of `TorProposalProvider`: `self.data` (the index
blob, `None` before any successful fetch) and `self.expire`. -/
structure PropState where
  data : Option String
  expire : Int

/-- Outcome of one refresh attempt of `TorProposalProvider.update`.  The
`try` block of the source covers ONLY `urlopen` (lines 306–309); the body
read, the charset lookup and the decode (lines 311–314) run outside it.
So the fetch has three outcomes: `openFail` — `urlopen` raised and the
bare `except: return` swallowed it; `bodyFail` — `urlopen` succeeded but
`response.read()`, `response.info()` or `data.decode(charset)` raised, an
exception nothing catches; `success d` — the body was read and decoded
(or treated as text when no charset is declared) to `d`. -/
inductive FetchOutcome where
  | openFail
  | bodyFail
  | success (d : String)

/-- `TorProposalProvider.update` (lines 303–317): return unchanged while
the cache has not expired; otherwise attempt the fetch.  A failed
`urlopen` is swallowed, leaving the state untouched; a failure while
reading or decoding the body raises uncaught — the state is still
untouched, because the assignments to `self.data` and `self.expire` come
last; on success the blob is stored and the expiry set two hours ahead.
The first component is the raised exception, if any; the second the cache
state after the call. -/
def propUpdate (s : PropState) (now : Int) (fetch : FetchOutcome) :
    Except PyError Unit × PropState :=
  if now < s.expire then (Except.ok (), s)
  else match fetch with
    | FetchOutcome.openFail => (Except.ok (), s)
    | FetchOutcome.bodyFail => (Except.error PyError.fetchError, s)
    | FetchOutcome.success d =>
      (Except.ok (), { data := some d, expire := now + 7200 })

/-- Fuel-driven search implementing
`re.search('^%s\s*(.*)' % ticketnumber, data, flags=re.MULTILINE)` for the
literal ticket numbers the provider receives: try every line start for the
ticket number as a prefix; on the first hit, skip following whitespace
(`\s*` may cross line breaks) and capture up to the next newline. -/
def propSearchAux : Nat → List Char → List Char → Option String
  | 0, _, _ => none
  | fuel + 1, tn, l =>
    if List.isPrefixOf tn l then
      some ((((l.drop tn.length).dropWhile isPySpace).takeWhile
        (fun c => c ≠ '\n')).asString)
    else
      match l.dropWhile (fun c => c ≠ '\n') with
      | [] => none
      | _ :: after => propSearchAux fuel tn after

/-- The line-anchored index search of `TorProposalProvider._gettitle`
(line 325). -/
def propSearch (ticketnumber data : String) : Option String :=
  propSearchAux (data.length + 1) ticketnumber.data data.data

/-- How a call to `TorProposalProvider._gettitle` fails: `notFound` is the
`IndexError` the dispatch loop catches (NotFound); `raised e` is any other
exception escaping `update`, which `except IndexError` does NOT catch, so
it propagates out of `doPrivmsg`. -/
inductive PropErr where
  | notFound
  | raised (e : PyError)
deriving DecidableEq, Repr

/-- `TorProposalProvider._gettitle` (lines 320–331): refresh via `update`
(propagating any exception `update` raises), raise `IndexError` (NotFound)
when no blob is cached, search the blob and raise `IndexError` when no
line matches, else return the captured title.  The cache state after the
call is returned alongside. -/
def prop_gettitle (s : PropState) (now : Int) (fetch : FetchOutcome)
    (ticketnumber : String) : Except PropErr String × PropState :=
  match propUpdate s now fetch with
  | (Except.error e, s2) => (Except.error (PropErr.raised e), s2)
  | (Except.ok _, s2) =>
    match s2.data with
    | none => (Except.error PropErr.notFound, s2)
    | some d =>
      match propSearch ticketnumber d with
      | none => (Except.error PropErr.notFound, s2)
      | some title => (Except.ok title, s2)

/-- The individual stages of the title pipeline, named for the ordering
theorems: stage `collapse` is the whitespace normalization of
`fixup_title`. -/
def stageCollapse (t : String) : String := collapseWs t

/-- Pipeline stage: the optional user fixup of `fixup_title`. -/
def stageFixup {α : Type} (p : Provider α) (tn t : String) (extra : Option α) :
    String :=
  match p.fixup with
  | none => t
  | some f => f tn t extra

/-- Pipeline stage: prepend `self.prefix` when configured. -/
def stagePre {α : Type} (p : Provider α) (t : String) : String :=
  match p.pre with
  | none => t
  | some s => s ++ t

/-- Pipeline stage: append `self.postfix % ticketnumber` when configured. -/
def stagePost {α : Type} (p : Provider α) (tn t : String) : String :=
  match p.post with
  | none => t
  | some s => t ++ pyFormat s [tn]

/-- Pipeline stage: append `" - [<status>]"` when the status finder is
configured and yields a status. -/
def stageStatus {α : Type} (p : Provider α) (tn t : String) (extra : Option α) :
    String :=
  match p.status_finder with
  | none => t
  | some sf => match sf tn extra with
    | none => t
    | some status => pyFormat "%s - [%s]" [t, status]

/-- Modelled from the spec's words for claim C4 (NOT from the source): the
pipeline order the spec asserts — collapse, then the status annotation,
then the fixup, then prefix, then postfix — to be compared against
`getitem`. -/
def specOrderPipeline {α : Type} (p : Provider α) (tn : String) :
    Except Unit String :=
  (p.gettitle tn).map fun r =>
    stagePost p tn (stagePre p (stageFixup p tn
      (stageStatus p tn (stageCollapse (titleOf r)) (extraOf r)) (extraOf r)))

/-- A provider with the given default pattern, channel bindings, rate-limit
state and `_gettitle`, and no fixup, prefix, postfix or status finder:
the shared shape of the concrete providers the dispatch theorems use. -/
def mkP {α : Type} (r : Option Findall) (chs : List (String × ChannelConf))
    (ls : List ((String × String) × Int))
    (gt : String → Except Unit (GetTitleResult α)) : Provider α :=
  { name := "p", fixup := none, pre := none, post := none,
    status_finder := none, re := r, channels := chs, lastSent := ls,
    gettitle := gt }

/-- Concrete provider for claim C1: its own default pattern is the generic
one, it has NO channel bindings at all, and every identifier resolves to
the title `"T"`. -/
def cp1 : Provider Unit :=
  mkP (some defaultREfindall) [] [] (fun _ => Except.ok (GetTitleResult.plain "T"))

/-- Concrete provider for the C1 witness: no default pattern of its own and
one binding whose glob matches no channel used. -/
def cp1w : Provider Unit :=
  mkP none [("#x*", ⟨none, true⟩)] [] (fun _ => Except.ok (GetTitleResult.plain "T"))

/-- Concrete provider for claim C2, first call: resolution of every
identifier fails with `IndexError` (NotFound). -/
def cp2a : Provider Unit :=
  mkP (some defaultREfindall) [] [] (fun _ => Except.error ())

/-- Concrete provider for claim C2, second call: the tracker has recovered
(resolution now succeeds) and `lastSent` carries the state left by the
first call, which is empty. -/
def cp2b : Provider Unit :=
  mkP (some defaultREfindall) [] [] (fun _ => Except.ok (GetTitleResult.plain "T"))

/-- Concrete provider for claim C3: its compiled default pattern produces
five captures on the message used. -/
def cp3 : Provider Unit :=
  mkP (some (fun _ => ["1", "2", "3", "4", "5"])) [] []
    (fun _ => Except.ok (GetTitleResult.plain "T"))

/-- Concrete provider for claim C4: a fixup that wraps the title in
`F(...)`, prefix `P`, postfix `<%s>`, and a status finder that always
yields `open`; the raw title has whitespace runs to collapse. -/
def cp4 : Provider Unit :=
  { name := "p4",
    fixup := some fun _ t _ => "F(" ++ t ++ ")",
    pre := some "P",
    post := some "<%s>",
    status_finder := some fun _ _ => some "open",
    re := none, channels := [], lastSent := [],
    gettitle := fun _ => Except.ok (GetTitleResult.plain " a  b ") }

/-- Concrete provider for claim C7: a `ReGroupFixup` over the abstract
secondary pattern `gr`, prefix `X`, postfix `" - http://x/%s"`, and a raw
fetched title with boilerplate and whitespace runs. -/
def mkP7 (gr : String → Option (Option String)) : Provider Unit :=
  { name := "p7",
    fixup := some fun i x _ => reGroupFixup gr i x,
    pre := some "X",
    post := some " - http://x/%s",
    status_finder := none,
    re := none, channels := [], lastSent := [],
    gettitle := fun _ =>
      Except.ok (GetTitleResult.plain
        "  Issue #42:   Fix   the thing   - Foo Tracker  ") }

/-- A `_gettitle` that resolves every identifier to the plain title `"T"`. -/
def gtT : String → Except Unit (GetTitleResult Unit) :=
  fun _ => Except.ok (GetTitleResult.plain "T")

/-- Concrete provider for the C9 witness: one rate-limit entry recorded at
time 10 for the pair the message triggers. -/
def cp9 : Provider Unit :=
  mkP (some defaultREfindall) [] [(("#c", "1234"), 10)] gtT

/-- Concrete provider for the C10 witness: one existing binding for the
glob `#x`, with no dedicated regex and a false default flag. -/
def cp10 : Provider Unit :=
  mkP none [("#x", ⟨none, false⟩)] [] gtT

/-- Concrete secondary pattern for the C7 witness: matches exactly the
collapsed boilerplate title, capturing `"Fix the thing"` in its first
group. -/
def gr7 : String → Option (Option String) := fun s =>
  if s = "Issue #42: Fix the thing - Foo Tracker" then
    some (some "Fix the thing")
  else none

/-!  Theorems.  First the sanity facts and shared helper lemmas, then one
theorem per claim (with witnesses and counterexamples where required). -/

/-- The rate-limit branch's `log.debug("[%s][%s] rate limited match %s" %
(self.name, tgt, m))` (line 187) is well-formed: three specifiers, three
arguments.  It is therefore modelled as a no-op inside `stepLoop`. -/
theorem logFormat_rate_limited_ok :
    logFormat "[%s][%s] rate limited match %s" 3 = Except.ok () := rfl

/-- The failed-lookup branch's `log.debug("[%s][%s] failed to lookup %s" %
(self.name, tgt, m))` (line 193) is well-formed: three specifiers, three
arguments.  It is therefore modelled as a no-op inside `stepLoop`. -/
theorem logFormat_failed_lookup_ok :
    logFormat "[%s][%s] failed to lookup %s" 3 = Except.ok () := rfl

/-- The ceiling branch's `log.debug("[%s] skipping because too many matches
(%d)" % (len(matches),))` (line 182) is malformed: two conversion
specifiers (`%s` and `%d`) but a one-element argument tuple, so evaluating
the format raises `TypeError`. -/
theorem logFormat_skipping_raises :
    logFormat "[%s] skipping because too many matches (%d)" 1 =
      Except.error PyError.typeError := rfl

/-- Sanity: the generic pattern needs at least four digits, a non-word
follower, and a non-word character before the `#`. -/
theorem defaultREfindall_examples :
    defaultREfindall "see #1234 and #12, x#5678, ##9999" = ["1234", "9999"] := rfl

/-- Sanity: proposal index lookup finds the line and strips the separating
whitespace. -/
theorem propSearch_example :
    propSearch "123" "100  First\n123   Second prop\n200 Third" =
      some "Second prop" := rfl

/-- Updating one key of the rate-limit cache leaves every other key's
binding unchanged. -/
theorem lsLookup_insert_ne (ls : List ((String × String) × Int))
    (k k2 : String × String) (v : Int) (h : k ≠ k2) :
    lsLookup (lsInsert ls k v) k2 = lsLookup ls k2 := by
  induction ls with
  | nil => simp [lsInsert, lsLookup, h]
  | cons kv rest ih =>
    by_cases hk : kv.1 = k
    · simp [lsInsert, hk, lsLookup, h]
    · simp only [lsInsert, lsLookup]
      rw [if_neg (by exact hk)]
      by_cases hk2 : kv.1 = k2
      · simp [lsLookup, hk2]
      · simp [lsLookup, hk2, ih]

/-- The channel loop's fold is the identity on its accumulator over a list
of bindings none of whose globs matches the target. -/
theorem channelFold_nonmatching (tgt msg : String)
    (chs : List (String × ChannelConf)) (acc : List String)
    (h : ∀ kc ∈ chs, fnmatch tgt kc.1 = false) :
    chs.foldl
      (fun acc kc =>
        if fnmatch tgt kc.1 then
          let acc2 := if kc.2.dflt then acc ++ defaultREfindall msg else acc
          match kc.2.re with
          | none => acc2
          | some f => acc2 ++ f msg
        else acc)
      acc = acc := by
  induction chs generalizing acc with
  | nil => rfl
  | cons kc rest ih =>
    rw [List.foldl_cons]
    have hkc := h kc (List.mem_cons_self _ _)
    simp only [hkc, Bool.false_eq_true, if_false]
    exact ih acc fun kc2 hm => h kc2 (List.mem_cons_of_mem _ hm)

/-- A provider none of whose channel globs matches the target collects no
matches from the channel loop. -/
theorem channelMatches_eq_nil {α : Type} (p : Provider α) (tgt msg : String)
    (h : ∀ kc ∈ p.channels, fnmatch tgt kc.1 = false) :
    channelMatches p tgt msg = [] := by
  unfold channelMatches
  exact channelFold_nonmatching tgt msg p.channels [] h

/-- C1: claim refuted on the code.  A provider with no channel bindings at
all (so no glob matches any channel) whose own default pattern matches the
message does reply: line 167 adds `self.matches(msg)` unconditionally,
before the channel loop, so channel opt-in is not required for the
provider's own `self.re`. -/
theorem c1_counterexample :
    cp1.channels = [] ∧
    doPrivmsg cp1 "#chan" "see #12345" 0 =
      Except.ok (["T"], [(("#chan", "12345"), 0)]) ∧
    (["T"] : List String) ≠ [] :=
  ⟨rfl, rfl, by decide⟩

/-- C1 (amended): if no channel binding's glob matches the target AND the
provider's own default pattern contributes no match on the message, then
`doPrivmsg` yields no reply and leaves `lastSent` unchanged; the
provider's own `self.re` remains active in every channel without
opt-in. -/
theorem c1_amended {α : Type} (p : Provider α) (tgt msg : String) (now : Int)
    (hre : p.matches msg = [])
    (hch : ∀ kc ∈ p.channels, fnmatch tgt kc.1 = false) :
    doPrivmsg p tgt msg now = Except.ok ([], p.lastSent) := by
  unfold doPrivmsg
  rw [hre, channelMatches_eq_nil p tgt msg hch]
  rfl

/-- C1 witness: the amended theorem applied to a provider with one
non-matching binding and no own pattern. -/
theorem c1_amended_witness :
    doPrivmsg cp1w "#y" "#1234" 0 = Except.ok ([], []) :=
  c1_amended cp1w "#y" "#1234" 0 rfl (by decide)

/-- C3: the claim is right about the intent and the code is wrong.  On a
message collecting five candidates the ceiling branch is taken, but its
debug-log format string has two conversion specifiers and a one-element
argument tuple, so `doPrivmsg` raises `TypeError` instead of dropping the
message silently. -/
theorem c3_code_bug :
    doPrivmsg cp3 "#chan" "five refs" 0 = Except.error PyError.typeError := rfl

/-- C4: claim refuted on the code.  At a concrete provider the code's
pipeline (`getitem`) appends the status annotation last — after fixup,
prefix and postfix — while the spec's claimed order (`specOrderPipeline`,
status before fixup) produces a different string. -/
theorem c4_counterexample :
    getitem cp4 "7" = Except.ok "PF(a b)<7> - [open]" ∧
    specOrderPipeline cp4 "7" = Except.ok "PF(a b - [open])<7>" ∧
    ("PF(a b)<7> - [open]" : String) ≠ "PF(a b - [open])<7>" :=
  ⟨rfl, rfl, by decide⟩

/-- C4 (amended): the pipeline order actually applied for every provider
and ticket is collapse whitespace, then fixup, then prefix, then postfix,
and the status annotation last — so fixup functions see the title BEFORE
the status is resolved. -/
theorem c4_amended {α : Type} (p : Provider α) (tn : String) :
    getitem p tn = (p.gettitle tn).map fun r =>
      stageStatus p tn
        (stagePost p tn (stagePre p
          (stageFixup p tn (stageCollapse (titleOf r)) (extraOf r))))
        (extraOf r) := by
  unfold getitem fixup_title stageStatus stagePost stagePre stageFixup stageCollapse
  cases hg : p.gettitle tn with
  | error e => simp [hg, Except.map, bind, Except.bind]
  | ok r => simp [hg, Except.map, bind, Except.bind, pure, Except.pure]

/-- C5: claim refuted on the code.  The composite provider's fetch URL
joins the path and the number with the GitLab dash segment, not with a
plain `issues` segment as the claim states. -/
theorem c5_counterexample :
    gitlabFetchUrl "U" "mygroup/proj" "1234" = "Umygroup/proj/-/issues/1234" ∧
    ("Umygroup/proj/-/issues/1234" : String) ≠
      "U" ++ "mygroup/proj" ++ "/issues/" ++ "1234" :=
  ⟨rfl, by decide⟩

/-- C5 (amended): for every base URL, path and ticket number the composite
provider fetches the document at the base URL, then the path, then the
GitLab dash-issues segment, then the number. -/
theorem c5_amended (base path tn : String) :
    gitlabFetchUrl base path tn = base ++ path ++ "/-/issues/" ++ tn := by
  apply String.ext
  have hL : (gitlabFetchUrl base path tn).data =
      (base.data ++ (path.data ++ "/-/issues/".data)) ++ (tn.data ++ []) := rfl
  have hR : (base ++ path ++ "/-/issues/" ++ tn).data =
      ((base.data ++ path.data) ++ "/-/issues/".data) ++ tn.data := rfl
  rw [hL, hR]
  simp [List.append_assoc]

/-- If resolution of identifier `m` fails with NotFound, the per-candidate
loop never writes a `lastSent` entry for `(tgt, m)`, whatever else the
candidate list contains. -/
theorem stepLoop_lookup_of_fail {α : Type} (p : Provider α) (tgt : String)
    (now : Int) (m : String) (hfail : getitem p m = Except.error ())
    (ms : List String) (ls : List ((String × String) × Int)) :
    lsLookup (stepLoop p tgt now ms ls).2 (tgt, m) = lsLookup ls (tgt, m) := by
  induction ms generalizing ls with
  | nil => rfl
  | cons m2 rest ih =>
    simp only [stepLoop]
    by_cases hrl : rateLimited ls tgt m2 now = true
    · rw [if_pos hrl]; exact ih ls
    · rw [if_neg hrl]
      cases hg : getitem p m2 with
      | error e => exact ih ls
      | ok item =>
        have hne : (tgt, m2) ≠ (tgt, m) := by
          intro he
          have hm : m2 = m := congrArg Prod.snd he
          rw [hm, hfail] at hg
          exact Except.noConfusion hg
        calc lsLookup (stepLoop p tgt now rest (lsInsert ls (tgt, m2) now)).2 (tgt, m)
            = lsLookup (lsInsert ls (tgt, m2) now) (tgt, m) := ih _
          _ = lsLookup ls (tgt, m) := lsLookup_insert_ne ls (tgt, m2) (tgt, m) now hne

/-- A pair that is rate-limited at call time keeps its exact `lastSent`
entry through the whole per-candidate loop. -/
theorem stepLoop_lookup_of_limited {α : Type} (p : Provider α) (tgt : String)
    (now : Int) (m : String) (t : Int) (hrl : now - minRepeat ≤ t)
    (ms : List String) (ls : List ((String × String) × Int))
    (h : lsLookup ls (tgt, m) = some t) :
    lsLookup (stepLoop p tgt now ms ls).2 (tgt, m) = some t := by
  induction ms generalizing ls with
  | nil => exact h
  | cons m2 rest ih =>
    simp only [stepLoop]
    by_cases hb : rateLimited ls tgt m2 now = true
    · rw [if_pos hb]; exact ih ls h
    · rw [if_neg hb]
      have hne : (tgt, m2) ≠ (tgt, m) := by
        intro he
        apply hb
        have hm : m2 = m := congrArg Prod.snd he
        unfold rateLimited
        rw [hm, h]
        exact decide_eq_true hrl
      cases hg : getitem p m2 with
      | error e => exact ih ls h
      | ok item =>
        exact ih (lsInsert ls (tgt, m2) now)
          (by rw [lsLookup_insert_ne ls (tgt, m2) (tgt, m) now hne]; exact h)

/-- C2: claim refuted on the code.  First call: every resolution fails with
NotFound, and the final `lastSent` is EMPTY — no timestamp was recorded at
dedupe-survival time (line 197 runs only after a successful lookup).
Second call, within the cooldown window, with the tracker recovered
(`cp2b` resolves, and carries the empty `lastSent` the first call left):
a reply IS produced, so the failed attempt did not consume the cooldown
slot. -/
theorem c2_counterexample :
    doPrivmsg cp2a "#c" "#1234" 100 = Except.ok ([], []) ∧
    doPrivmsg cp2b "#c" "#1234" 200 =
      Except.ok (["T"], [(("#c", "1234"), 200)]) :=
  ⟨rfl, rfl⟩

/-- C2 (amended): the `lastSent` timestamp is recorded only at successful
emission, after resolution; when resolution of an identifier fails with
NotFound, its `(target, identifier)` entry is left exactly as it was, so
the candidate is not blocked from retry by the failed attempt. -/
theorem c2_amended {α : Type} (p : Provider α) (tgt msg m : String)
    (now : Int) (out : List String) (ls2 : List ((String × String) × Int))
    (hfail : getitem p m = Except.error ())
    (hrun : doPrivmsg p tgt msg now = Except.ok (out, ls2)) :
    lsLookup ls2 (tgt, m) = lsLookup p.lastSent (tgt, m) := by
  unfold doPrivmsg at hrun
  by_cases hlen : 4 ≤ (p.matches msg ++ channelMatches p tgt msg).length
  · rw [if_pos hlen] at hrun
    exact Except.noConfusion hrun
  · rw [if_neg hlen] at hrun
    have h2 : stepLoop p tgt now (p.matches msg ++ channelMatches p tgt msg)
        p.lastSent = (out, ls2) := Except.ok.inj hrun
    have h3 := stepLoop_lookup_of_fail p tgt now m hfail
      (p.matches msg ++ channelMatches p tgt msg) p.lastSent
    rw [h2] at h3
    exact h3

/-- C2 witness: the amended theorem applied to the failing concrete
provider. -/
theorem c2_amended_witness :
    lsLookup ([] : List ((String × String) × Int)) ("#c", "1234") =
      lsLookup cp2a.lastSent ("#c", "1234") :=
  c2_amended cp2a "#c" "#1234" "1234" 100 [] [] rfl rfl

/-- C9: a candidate dropped by the rate limiter keeps its stored
`lastSent` entry unchanged — suppressed repeats never extend the cooldown,
which stays measured from the last actual emission. -/
theorem c9_frame {α : Type} (p : Provider α) (tgt msg m : String)
    (t now : Int) (out : List String) (ls2 : List ((String × String) × Int))
    (hls : lsLookup p.lastSent (tgt, m) = some t)
    (hrl : now - minRepeat ≤ t)
    (hrun : doPrivmsg p tgt msg now = Except.ok (out, ls2)) :
    lsLookup ls2 (tgt, m) = some t := by
  unfold doPrivmsg at hrun
  by_cases hlen : 4 ≤ (p.matches msg ++ channelMatches p tgt msg).length
  · rw [if_pos hlen] at hrun
    exact Except.noConfusion hrun
  · rw [if_neg hlen] at hrun
    have h2 : stepLoop p tgt now (p.matches msg ++ channelMatches p tgt msg)
        p.lastSent = (out, ls2) := Except.ok.inj hrun
    have h3 := stepLoop_lookup_of_limited p tgt now m t hrl
      (p.matches msg ++ channelMatches p tgt msg) p.lastSent hls
    rw [h2] at h3
    exact h3

/-- C9 witness: a provider with a fresh entry at time 10 processing the
same reference again at time 100 keeps the entry at 10. -/
theorem c9_frame_witness :
    lsLookup [(("#c", "1234"), 10)] ("#c", "1234") = some 10 :=
  c9_frame cp9 "#c" "#1234" "1234" 10 100 [] [(("#c", "1234"), 10)]
    rfl (by decide) rfl

/-- When the collected match list is below the ceiling, `doPrivmsg` is the
per-candidate loop run on it. -/
theorem doPrivmsg_small {α : Type} (p : Provider α) (tgt msg : String)
    (now : Int) (ms : List String) (ls : List ((String × String) × Int))
    (hms : p.matches msg ++ channelMatches p tgt msg = ms)
    (hls : p.lastSent = ls)
    (hlen : ms.length < 4) :
    doPrivmsg p tgt msg now = Except.ok (stepLoop p tgt now ms ls) := by
  unfold doPrivmsg
  rw [hms, hls, if_neg (by omega)]
  rfl

/-- One not-rate-limited, resolvable candidate: one reply and a fresh
`lastSent` entry at `now`. -/
theorem stepLoop_single_hit {α : Type} (p : Provider α) (tgt m : String)
    (now : Int) (ls : List ((String × String) × Int)) (item : String)
    (h1 : rateLimited ls tgt m now = false)
    (h2 : getitem p m = Except.ok item) :
    stepLoop p tgt now [m] ls = ([item], lsInsert ls (tgt, m) now) := by
  simp only [stepLoop, h1, Bool.false_eq_true, if_false, h2]

/-- One rate-limited candidate: no reply, `lastSent` untouched. -/
theorem stepLoop_single_limited {α : Type} (p : Provider α) (tgt m : String)
    (now : Int) (ls : List ((String × String) × Int))
    (h1 : rateLimited ls tgt m now = true) :
    stepLoop p tgt now [m] ls = ([], ls) := by
  simp only [stepLoop, h1, if_true]

/-- C6: rate-limit idempotence.  With one resolvable candidate per message
and a fresh state: the first call (time `t1`) replies and records `t1`;
a second identical call within the cooldown window (`t2 ≤ t1 + minRepeat`)
yields no reply and leaves the entry at `t1`; a third call after the
window has elapsed (`t1 + minRepeat < t3`) replies again and re-records at
`t3`. -/
theorem c6_idempotence {α : Type} (r : Findall)
    (gt : String → Except Unit (GetTitleResult α))
    (tgt msg m item : String) (t1 t2 t3 : Int)
    (hr : r msg = [m])
    (hres : getitem (mkP (some r) [] [] gt) m = Except.ok item)
    (h12 : t2 ≤ t1 + minRepeat)
    (h13 : t1 + minRepeat < t3) :
    doPrivmsg (mkP (some r) [] [] gt) tgt msg t1 =
      Except.ok ([item], [((tgt, m), t1)]) ∧
    doPrivmsg (mkP (some r) [] [((tgt, m), t1)] gt) tgt msg t2 =
      Except.ok ([], [((tgt, m), t1)]) ∧
    doPrivmsg (mkP (some r) [] [((tgt, m), t1)] gt) tgt msg t3 =
      Except.ok ([item], [((tgt, m), t3)]) := by
  have hms1 : (mkP (some r) [] ([] : List ((String × String) × Int)) gt).matches msg ++
      channelMatches (mkP (some r) [] [] gt) tgt msg = [m] := by
    have hm : (mkP (some r) [] ([] : List ((String × String) × Int)) gt).matches msg
        = [m] := hr
    rw [hm]
    rfl
  have hms2 : (mkP (some r) [] [((tgt, m), t1)] gt).matches msg ++
      channelMatches (mkP (some r) [] [((tgt, m), t1)] gt) tgt msg = [m] := by
    have hm : (mkP (some r) [] [((tgt, m), t1)] gt).matches msg = [m] := hr
    rw [hm]
    rfl
  have hres2 : getitem (mkP (some r) [] [((tgt, m), t1)] gt) m =
      Except.ok item := hres
  have hlk : lsLookup [((tgt, m), t1)] (tgt, m) = some t1 := by
    simp [lsLookup]
  have hrl2 : rateLimited [((tgt, m), t1)] tgt m t2 = true := by
    unfold rateLimited
    rw [hlk]
    exact decide_eq_true (by unfold minRepeat at h12 ⊢; omega)
  have hrl3 : rateLimited [((tgt, m), t1)] tgt m t3 = false := by
    unfold rateLimited
    rw [hlk]
    exact decide_eq_false (by unfold minRepeat at h13 ⊢; omega)
  have hins : lsInsert [((tgt, m), t1)] (tgt, m) t3 = [((tgt, m), t3)] := by
    simp [lsInsert]
  have hins1 : lsInsert ([] : List ((String × String) × Int)) (tgt, m) t1 =
      [((tgt, m), t1)] := rfl
  refine ⟨?_, ?_, ?_⟩
  · rw [doPrivmsg_small _ tgt msg t1 [m] [] hms1 rfl (by simp),
      stepLoop_single_hit _ tgt m t1 [] item rfl hres, hins1]
  · rw [doPrivmsg_small _ tgt msg t2 [m] [((tgt, m), t1)] hms2 rfl (by simp),
      stepLoop_single_limited _ tgt m t2 [((tgt, m), t1)] hrl2]
  · rw [doPrivmsg_small _ tgt msg t3 [m] [((tgt, m), t1)] hms2 rfl (by simp),
      stepLoop_single_hit _ tgt m t3 [((tgt, m), t1)] item hrl3 hres2, hins]

/-- C6 witness: the generic pattern on `"#1234"`, a provider resolving to
`"T"`, at times 0, 1800 (still inside the window) and 1801 (outside). -/
theorem c6_idempotence_witness :
    doPrivmsg (mkP (some defaultREfindall) [] [] gtT) "#c" "#1234" 0 =
      Except.ok (["T"], [(("#c", "1234"), 0)]) ∧
    doPrivmsg (mkP (some defaultREfindall) [] [(("#c", "1234"), 0)] gtT)
        "#c" "#1234" 1800 =
      Except.ok ([], [(("#c", "1234"), 0)]) ∧
    doPrivmsg (mkP (some defaultREfindall) [] [(("#c", "1234"), 0)] gtT)
        "#c" "#1234" 1801 =
      Except.ok (["T"], [(("#c", "1234"), 1801)]) :=
  c6_idempotence defaultREfindall gtT "#c" "#1234" "1234" "T" 0 1800 1801
    rfl rfl (by decide) (by decide)

/-- When the secondary pattern matches with a first capture group, the
`ReGroupFixup` result is built from that capture. -/
theorem reGroupFixup_group (gr : String → Option (Option String))
    (i x g : String) (h : gr x = some (some g)) :
    reGroupFixup gr i x = pyFormat "#%s: %s" [i, g] := by
  unfold reGroupFixup
  rw [h]

/-- C7: the formatting round-trip of the spec.  For any secondary pattern
whose first group captures `"Fix the thing"` from the collapsed raw title,
resolving identifier `42` through the provider with prefix `X` and postfix
`" - http://x/%s"` yields exactly `"X#42: Fix the thing - http://x/42"`. -/
theorem c7_roundtrip (gr : String → Option (Option String))
    (hgr : gr "Issue #42: Fix the thing - Foo Tracker" =
      some (some "Fix the thing")) :
    getitem (mkP7 gr) "42" = Except.ok "X#42: Fix the thing - http://x/42" := by
  have h1 : reGroupFixup gr "42" "Issue #42: Fix the thing - Foo Tracker" =
      pyFormat "#%s: %s" ["42", "Fix the thing"] :=
    reGroupFixup_group gr _ _ _ hgr
  show Except.ok
      (("X" ++ reGroupFixup gr "42" "Issue #42: Fix the thing - Foo Tracker") ++
        pyFormat " - http://x/%s" ["42"]) = _
  rw [h1]
  rfl

/-- C7 witness: the round-trip theorem at the concrete secondary
pattern. -/
theorem c7_roundtrip_witness :
    getitem (mkP7 gr7) "42" = Except.ok "X#42: Fix the thing - http://x/42" :=
  c7_roundtrip gr7 rfl

/-- C8: claim refuted on the code.  With the cache expired, a refresh
attempt whose `urlopen` succeeds but whose body read or decode fails
(lines 311–314 run outside the `try`) raises an uncaught exception: the
failed refresh does leave blob and expiry unchanged, but it is not
non-raising, and the exception that `_gettitle` propagates is not the
NotFound condition the dispatch loop catches. -/
theorem c8_counterexample :
    propUpdate ⟨some "blob", 0⟩ 5 FetchOutcome.bodyFail =
      (Except.error PyError.fetchError, ⟨some "blob", 0⟩) ∧
    prop_gettitle ⟨some "blob", 0⟩ 5 FetchOutcome.bodyFail "1" =
      (Except.error (PropErr.raised PyError.fetchError), ⟨some "blob", 0⟩) ∧
    (Except.error PyError.fetchError : Except PyError Unit) ≠ Except.ok () ∧
    PropErr.raised PyError.fetchError ≠ PropErr.notFound :=
  ⟨rfl, rfl, fun h => Except.noConfusion h, by decide⟩

/-- C8 (amended): refresh is attempted only when the expiry has passed —
before then the state is unchanged and no fetch outcome is consulted.  A
refresh whose `urlopen` fails is swallowed: blob and expiry unchanged,
nothing raised.  A refresh failing after a successful open — while reading
or decoding the body — raises an uncaught exception, still leaving blob
and expiry unchanged; `_gettitle` propagates it.  A lookup performed while
the blob is absent raises NotFound, a lookup whose line-anchored search
finds no matching line raises NotFound, and otherwise the lookup returns
the captured title. -/
theorem c8_amended (s : PropState) (now : Int) (fetch : FetchOutcome)
    (tn : String) :
    (now < s.expire → propUpdate s now fetch = (Except.ok (), s)) ∧
    (s.expire ≤ now →
      propUpdate s now FetchOutcome.openFail = (Except.ok (), s)) ∧
    (s.expire ≤ now →
      propUpdate s now FetchOutcome.bodyFail =
        (Except.error PyError.fetchError, s)) ∧
    (∀ e s2, propUpdate s now fetch = (Except.error e, s2) →
      prop_gettitle s now fetch tn = (Except.error (PropErr.raised e), s2)) ∧
    (∀ s2, propUpdate s now fetch = (Except.ok (), s2) → s2.data = none →
      prop_gettitle s now fetch tn = (Except.error PropErr.notFound, s2)) ∧
    (∀ s2 d, propUpdate s now fetch = (Except.ok (), s2) → s2.data = some d →
      propSearch tn d = none →
      prop_gettitle s now fetch tn = (Except.error PropErr.notFound, s2)) ∧
    (∀ s2 d t, propUpdate s now fetch = (Except.ok (), s2) → s2.data = some d →
      propSearch tn d = some t →
      prop_gettitle s now fetch tn = (Except.ok t, s2)) := by
  refine ⟨fun h => ?_, fun h => ?_, fun h => ?_, fun e s2 hup => ?_,
    fun s2 hup hd => ?_, fun s2 d hup hd hs => ?_, fun s2 d t hup hd hs => ?_⟩
  · unfold propUpdate
    rw [if_pos h]
  · unfold propUpdate
    rw [if_neg (by omega)]
  · unfold propUpdate
    rw [if_neg (by omega)]
  · unfold prop_gettitle
    rw [hup]
  · unfold prop_gettitle
    rw [hup]
    show (match s2.data with
      | none => ((Except.error PropErr.notFound : Except PropErr String), s2)
      | some d =>
        match propSearch tn d with
        | none => (Except.error PropErr.notFound, s2)
        | some title => (Except.ok title, s2)) =
      (Except.error PropErr.notFound, s2)
    rw [hd]
  · unfold prop_gettitle
    rw [hup]
    show (match s2.data with
      | none => ((Except.error PropErr.notFound : Except PropErr String), s2)
      | some d =>
        match propSearch tn d with
        | none => (Except.error PropErr.notFound, s2)
        | some title => (Except.ok title, s2)) =
      (Except.error PropErr.notFound, s2)
    rw [hd]
    show (match propSearch tn d with
      | none => ((Except.error PropErr.notFound : Except PropErr String), s2)
      | some title => (Except.ok title, s2)) =
      (Except.error PropErr.notFound, s2)
    rw [hs]
  · unfold prop_gettitle
    rw [hup]
    show (match s2.data with
      | none => ((Except.error PropErr.notFound : Except PropErr String), s2)
      | some d =>
        match propSearch tn d with
        | none => (Except.error PropErr.notFound, s2)
        | some title => (Except.ok title, s2)) =
      (Except.ok t, s2)
    rw [hd]
    show (match propSearch tn d with
      | none => ((Except.error PropErr.notFound : Except PropErr String), s2)
      | some title => (Except.ok title, s2)) =
      (Except.ok t, s2)
    rw [hs]

/-- C8 witness: the amended theorem's conjuncts at concrete cache states —
an unexpired cache ignores the fetch outcome; an expired cache survives a
swallowed open failure; a body-read failure raises and leaves the state;
that exception propagates through `_gettitle`; a lookup with no blob fails
NotFound; a missed search fails NotFound; a hit returns the title. -/
theorem c8_amended_witness :
    propUpdate ⟨some "blob", 100⟩ 50 (FetchOutcome.success "new") =
      (Except.ok (), ⟨some "blob", 100⟩) ∧
    propUpdate ⟨some "blob", 100⟩ 100 FetchOutcome.openFail =
      (Except.ok (), ⟨some "blob", 100⟩) ∧
    propUpdate ⟨some "blob", 100⟩ 100 FetchOutcome.bodyFail =
      (Except.error PyError.fetchError, ⟨some "blob", 100⟩) ∧
    prop_gettitle ⟨some "blob", 100⟩ 200 FetchOutcome.bodyFail "1" =
      (Except.error (PropErr.raised PyError.fetchError), ⟨some "blob", 100⟩) ∧
    prop_gettitle ⟨none, 0⟩ 5 FetchOutcome.openFail "1" =
      (Except.error PropErr.notFound, ⟨none, 0⟩) ∧
    prop_gettitle ⟨some "100 foo", 1000⟩ 0 FetchOutcome.openFail "999" =
      (Except.error PropErr.notFound, ⟨some "100 foo", 1000⟩) ∧
    prop_gettitle ⟨some "100 foo", 1000⟩ 0 FetchOutcome.openFail "100" =
      (Except.ok "foo", ⟨some "100 foo", 1000⟩) :=
  ⟨(c8_amended ⟨some "blob", 100⟩ 50 (FetchOutcome.success "new") "1").1
     (by decide),
   (c8_amended ⟨some "blob", 100⟩ 100 FetchOutcome.openFail "1").2.1
     (by decide),
   (c8_amended ⟨some "blob", 100⟩ 100 FetchOutcome.bodyFail "1").2.2.1
     (by decide),
   (c8_amended ⟨some "blob", 100⟩ 200 FetchOutcome.bodyFail "1").2.2.2.1
     PyError.fetchError ⟨some "blob", 100⟩ rfl,
   (c8_amended ⟨none, 0⟩ 5 FetchOutcome.openFail "1").2.2.2.2.1
     ⟨none, 0⟩ rfl rfl,
   (c8_amended ⟨some "100 foo", 1000⟩ 0 FetchOutcome.openFail "999").2.2.2.2.2.1
     ⟨some "100 foo", 1000⟩ "100 foo" rfl rfl rfl,
   (c8_amended ⟨some "100 foo", 1000⟩ 0 FetchOutcome.openFail "100").2.2.2.2.2.2
     ⟨some "100 foo", 1000⟩ "100 foo" "foo" rfl rfl rfl⟩

/-- Looking a key up right after `chInsert` on that key yields the new
binding. -/
theorem chLookup_chInsert_self (chs : List (String × ChannelConf))
    (c : String) (v : ChannelConf) :
    chLookup (chInsert chs c v) c = some v := by
  induction chs with
  | nil => simp [chInsert, chLookup]
  | cons kv rest ih =>
    obtain ⟨k, w⟩ := kv
    by_cases hk : k = c
    · subst hk
      simp [chInsert, chLookup]
    · simp only [chInsert]
      rw [if_neg hk]
      simp only [chLookup]
      rw [if_neg hk]
      exact ih

/-- Re-inserting a key that is already bound keeps the table's size. -/
theorem chInsert_length_of_mem (chs : List (String × ChannelConf))
    (c : String) (v : ChannelConf) (h : containsChannel chs c = true) :
    (chInsert chs c v).length = chs.length := by
  induction chs with
  | nil => simp [containsChannel, chLookup] at h
  | cons kv rest ih =>
    obtain ⟨k, w⟩ := kv
    by_cases hk : k = c
    · simp [chInsert, hk]
    · have h2 : containsChannel rest c = true := by
        simp only [containsChannel, chLookup] at h
        rw [if_neg hk] at h
        exact h
      simp only [chInsert]
      rw [if_neg hk]
      simp only [List.length_cons]
      rw [ih h2]

/-- A binding for a different glob does not contribute to a glob's binding
count. -/
theorem countKey_cons_ne (k : String) (w : ChannelConf)
    (l : List (String × ChannelConf)) (c : String) (hk : ¬k = c) :
    countKey ((k, w) :: l) c = countKey l c := by
  simp [countKey, List.filter_cons, hk]

/-- Re-inserting a key that is already bound keeps the number of bindings
stored for it. -/
theorem countKey_chInsert_of_mem (chs : List (String × ChannelConf))
    (c : String) (v : ChannelConf) (h : containsChannel chs c = true) :
    countKey (chInsert chs c v) c = countKey chs c := by
  induction chs with
  | nil => simp [containsChannel, chLookup] at h
  | cons kv rest ih =>
    obtain ⟨k, w⟩ := kv
    by_cases hk : k = c
    · subst hk
      simp [chInsert, countKey, List.filter_cons]
    · have h2 : containsChannel rest c = true := by
        simp only [containsChannel, chLookup] at h
        rw [if_neg hk] at h
        exact h
      simp only [chInsert]
      rw [if_neg hk, countKey_cons_ne k w (chInsert rest c v) c hk,
        countKey_cons_ne k w rest c hk]
      exact ih h2

/-- C10: re-registering a channel glob that this provider already has a
binding for replaces the stored regex and default flag entirely, keeps
exactly one binding for that glob and the table size unchanged, and logs
the "re-adding" warning; `addChannel` is a total function, so nothing is
raised. -/
theorem c10_addChannel {α : Type} (p : Provider α) (c : String)
    (regex : Option Findall) (dflt : Bool)
    (hmem : containsChannel p.channels c = true)
    (hone : countKey p.channels c = 1) :
    chLookup (addChannel p c regex dflt).1.channels c = some ⟨regex, dflt⟩ ∧
    (addChannel p c regex dflt).1.channels.length = p.channels.length ∧
    countKey (addChannel p c regex dflt).1.channels c = 1 ∧
    (addChannel p c regex dflt).2 = true := by
  refine ⟨?_, ?_, ?_, hmem⟩
  · exact chLookup_chInsert_self p.channels c ⟨regex, dflt⟩
  · exact chInsert_length_of_mem p.channels c ⟨regex, dflt⟩ hmem
  · show countKey (chInsert p.channels c ⟨regex, dflt⟩) c = 1
    rw [countKey_chInsert_of_mem p.channels c ⟨regex, dflt⟩ hmem]
    exact hone

/-- C10 witness: replacing the `#x` binding of a provider that already has
one. -/
theorem c10_addChannel_witness :
    chLookup (addChannel cp10 "#x" none true).1.channels "#x" =
      some ⟨none, true⟩ ∧
    (addChannel cp10 "#x" none true).1.channels.length =
      cp10.channels.length ∧
    countKey (addChannel cp10 "#x" none true).1.channels "#x" = 1 ∧
    (addChannel cp10 "#x" none true).2 = true :=
  c10_addChannel cp10 "#x" none true rfl rfl
